import Mathlib

/-!
A shallow embedding of the SurCam surveillance pipeline
(camera_surveillance.py, cp_camera_capture.py, exam_surveillance.py,
telegram_notifier.py) together with theorems about its connection
negotiation, surveillance loop, analysis error handling, persistence
and notification behaviour.

Conventions of the embedding:
* External effects (the RTSP transport, the HTTP analysis backend, the
  Telegram sink, the wall clock) are modelled as explicit oracle inputs.
* Each operation returns, besides its result, the list of observable
  events it performed, in order.
* Python code that can raise is modelled with Except; code that catches
  every exception is modelled as a total function over the oracle.
-/

namespace SurCam

/-! ## FrameSource state (CameraSurveillance.cap / CPCameraCapture.cap)

`cv2.VideoCapture.release` is a safe no-op on an already released
capture; `disconnect` runs `self.cap.release()` only when `self.cap`
is not None (a VideoCapture object is always truthy) and does not
reset `self.cap` to None. -/

structure Cap where
  opened : Bool
deriving DecidableEq, Repr

def Cap.release (_ : Cap) : Cap := ⟨false⟩

structure FrameSource where
  cap : Option Cap
deriving DecidableEq, Repr

def disconnect (s : FrameSource) : FrameSource :=
  match s.cap with
  | none => s
  | some c => ⟨some c.release⟩

def isConnected (s : FrameSource) : Bool :=
  match s.cap with
  | some c => c.opened
  | none => false

/-! ## connect (CameraSurveillance.connect / CPCameraCapture.connect)

The transport behaviour of each candidate RTSP URL is an oracle value:
* `openFail`: `cv2.VideoCapture` yields a capture with `isOpened()`
  false; the code hits `continue` without calling `release()`.
* `frameOk`: a valid non-empty frame arrives within the 5 second
  polling window; the code returns True immediately.
* `noFrame`: the capture opens but no valid frame arrives within the
  window; the code calls `release()` and advances.
* `exnAfterOpen`: an exception is raised after the capture object for
  this candidate was created; the handler calls `release()` and
  advances. -/

inductive CandOutcome where
  | openFail
  | frameOk
  | noFrame
  | exnAfterOpen
deriving DecidableEq, Repr

inductive CEvent where
  | attempt (i : Nat)
  | release (i : Nat)
  | success (i : Nat)
deriving DecidableEq, Repr

def connectGo : List CandOutcome → Nat → Bool × List CEvent
  | [], _ => (false, [])
  | o :: rest, i =>
    match o with
    | .frameOk => (true, [.attempt i, .success i])
    | .openFail =>
      let p := connectGo rest (i + 1)
      (p.1, .attempt i :: p.2)
    | .noFrame =>
      let p := connectGo rest (i + 1)
      (p.1, .attempt i :: .release i :: p.2)
    | .exnAfterOpen =>
      let p := connectGo rest (i + 1)
      (p.1, .attempt i :: .release i :: p.2)

def connect (cands : List CandOutcome) : Bool × List CEvent :=
  connectGo cands 0

def attemptedIdx (es : List CEvent) : List Nat :=
  es.filterMap fun e => match e with | .attempt i => some i | _ => none

def releasedIdx (es : List CEvent) : List Nat :=
  es.filterMap fun e => match e with | .release i => some i | _ => none

def successIdx (es : List CEvent) : List Nat :=
  es.filterMap fun e => match e with | .success i => some i | _ => none

/-- Which candidate outcomes make `connect` call `release()` on that
candidate's capture object. -/
def releasesResource : CandOutcome → Bool
  | .noFrame => true
  | .exnAfterOpen => true
  | _ => false

/-- The release events the source actually emits for a run of failing
candidates starting at index `i`. -/
def expectedReleased : List CandOutcome → Nat → List Nat
  | [], _ => []
  | o :: rest, i =>
    if releasesResource o then i :: expectedReleased rest (i + 1)
    else expectedReleased rest (i + 1)

/-- The event trace of a run of consecutive failing candidates. -/
def failEvents : List CandOutcome → Nat → List CEvent
  | [], _ => []
  | o :: rest, i =>
    if releasesResource o then .attempt i :: .release i :: failEvents rest (i + 1)
    else .attempt i :: failEvents rest (i + 1)

/-! ## AnalysisClient (CameraSurveillance.analyze_image)

The result dict of `analyze_image` has keys timestamp, image_path and
analysis; there is no separate status field in the code.  The outcome
of `requests.post` plus `response.json()` field extraction is the
oracle:
* `response status textField text`: an HTTP response arrived with the
  given status code; `textField` is the nested
  candidates[0].content.parts[0].text field when present (every
  missing level makes the chained `.get` defaults produce `none`
  here), `text` is `response.text`.
* `raises msg`: encoding, the request itself, or JSON decoding of the
  body raised; the surrounding try/except turns this into an error
  record. -/

structure Record where
  timestamp : String
  image_path : String
  analysis : String
deriving DecidableEq, Repr

inductive HttpResult where
  | response (status : Nat) (textField : Option String) (text : String)
  | raises (msg : String)
deriving DecidableEq, Repr

def analyze_image (h : HttpResult) (ts path : String) : Record :=
  match h with
  | .raises m => ⟨ts, path, "Error: " ++ m⟩
  | .response s tf txt =>
    if s = 200 then ⟨ts, path, tf.getD "No analysis available"⟩
    else ⟨ts, path, "Error analyzing image: " ++ toString s ++ " - " ++ txt⟩

inductive Status where
  | ok
  | error (reason : String)
deriving DecidableEq, Repr

/-- Modelled from the spec: the spec's AnalysisRecord carries a
status field in {ok, error(reason)} which the code realises only
through the analysis text; both error shapes the code produces start
with the marker "Error", so the spec-level status of a stored record
is error exactly when its analysis text starts with that marker. -/
def specStatus (r : Record) : Status :=
  if r.analysis.data.take 5 = "Error".data then Status.error r.analysis else Status.ok

/-! ## SurveillanceLoop (CameraSurveillance.run_surveillance)

One tick = one iteration of the while loop.  The oracle for a tick:
* `tickOk h`: `capture_frame` succeeds, the backend behaves as `h`;
  the loop analyzes, saves, notifies and sleeps `interval`.
* `failReconnectOk`: `capture_frame` fails; the loop disconnects,
  reconnects successfully and `continue`s (no analysis, no sleep).
* `failReconnectFail`: `capture_frame` fails, the reconnect also
  fails; the loop breaks and the finally block disconnects again.
* `interrupt`: KeyboardInterrupt; the finally block disconnects.
An exhausted tick list models the duration check breaking the loop,
followed by the finally-block disconnect. -/

inductive TickOutcome where
  | tickOk (h : HttpResult)
  | failReconnectOk
  | failReconnectFail
  | interrupt
deriving DecidableEq, Repr

inductive Event where
  | captured (i : Nat)
  | captureFail
  | saved (i : Nat) (r : Record)
  | notified (i : Nat) (r : Record)
  | slept
  | disconnected
  | reconnectOk
  | reconnectFail
deriving DecidableEq, Repr

/-- The record tick `i` produces: frame path `frame_i`, timestamp
abstracted as the tick index. -/
def tickRecord (h : HttpResult) (i : Nat) : Record :=
  analyze_image h (toString i) ("frame_" ++ toString i)

def runLoop : List TickOutcome → Nat → List Event
  | [], _ => [.disconnected]
  | .tickOk h :: rest, i =>
    .captured i :: .saved i (tickRecord h i) :: .notified i (tickRecord h i) ::
      .slept :: runLoop rest (i + 1)
  | .failReconnectOk :: rest, i =>
    .captureFail :: .disconnected :: .reconnectOk :: runLoop rest (i + 1)
  | .failReconnectFail :: _, _ =>
    [.captureFail, .disconnected, .reconnectFail, .disconnected]
  | .interrupt :: _, _ => [.disconnected]

/-- `run_surveillance` returns immediately (without entering the
try/finally, hence without any disconnect) when the initial connect
fails. -/
def run_surveillance (initialConnect : Bool) (ticks : List TickOutcome) : List Event :=
  if initialConnect then runLoop ticks 0 else []

def savedList (es : List Event) : List (Nat × Record) :=
  es.filterMap fun e => match e with | .saved i r => some (i, r) | _ => none

def notifiedList (es : List Event) : List (Nat × Record) :=
  es.filterMap fun e => match e with | .notified i r => some (i, r) | _ => none

def sleepCount (es : List Event) : Nat :=
  es.countP fun e => decide (e = Event.slept)

def disconnectCount (es : List Event) : Nat :=
  es.countP fun e => decide (e = Event.disconnected)

/-- The events of a run of consecutive successful ticks. -/
def okEvents : List HttpResult → Nat → List Event
  | [], _ => []
  | h :: rest, i =>
    .captured i :: .saved i (tickRecord h i) :: .notified i (tickRecord h i) ::
      .slept :: okEvents rest (i + 1)

/-- The indexed records a run of consecutive successful ticks persists
and notifies, in capture order. -/
def expectedRecords : List HttpResult → Nat → List (Nat × Record)
  | [], _ => []
  | h :: rest, i => (i, tickRecord h i) :: expectedRecords rest (i + 1)

/-! ## Persisted JSON format
(CameraSurveillance.save_analysis_results writes the record dict with
json.dump; exam_surveillance.send_results_one_by_one reads it back
with json.load).  Modelled at the level of the JSON value tree, which
Python's json module round-trips for string-valued fields. -/

inductive Json where
  | str (s : String)
  | obj (fields : List (String × Json))

def jsonLookup : List (String × Json) → String → Option Json
  | [], _ => none
  | (k, v) :: rest, key => if k = key then some v else jsonLookup rest key

def recordToJson (r : Record) : Json :=
  .obj [("timestamp", .str r.timestamp), ("image_path", .str r.image_path),
        ("analysis", .str r.analysis)]

def asStr : Option Json → Option String
  | some (.str s) => some s
  | _ => none

def recordOfJson (j : Json) : Option Record :=
  match j with
  | .obj fs =>
    match asStr (jsonLookup fs "timestamp"), asStr (jsonLookup fs "image_path"),
        asStr (jsonLookup fs "analysis") with
    | some t, some p, some a => some ⟨t, p, a⟩
    | _, _, _ => none
  | _ => none

/-! ## ResultStore
(CameraSurveillance.save_analysis_results / capture_frame's imwrite).
A file name is the pair of the fixed directory-and-stem part and the
second-resolution timestamp key produced by
datetime.now().strftime("%Y%m%d_%H%M%S"), modelled as a Nat.  Writing
with open(..., 'w') or cv2.imwrite truncates an existing file of the
same name. -/

abbrev Filename := String × Nat

def fsWrite {α : Type} : List (Filename × α) → Filename → α → List (Filename × α)
  | [], n, v => [(n, v)]
  | (m, w) :: rest, n, v =>
    if m = n then (n, v) :: rest else (m, w) :: fsWrite rest n v

def fsRead {α : Type} : List (Filename × α) → Filename → Option α
  | [], _ => none
  | (m, w) :: rest, n => if m = n then some w else fsRead rest n

def save_analysis_results (ts : Nat) (fs : List (Filename × Json)) (r : Record) :
    List (Filename × Json) :=
  fsWrite fs ("analysis_results/analysis_", ts) (recordToJson r)

/-- The frame write performed by capture_frame: cv2.imwrite of the
frame (abstracted as a Nat) under output_dir/frame_timestamp.jpg. -/
def save_frame (ts : Nat) (fs : List (Filename × Nat)) (frame : Nat) :
    List (Filename × Nat) :=
  fsWrite fs ("surveillance_images/frame_", ts) frame

/-- os.makedirs(d, exist_ok=True), run in the constructor for both
output directories. -/
def makedirs (existing : List String) (d : String) : List String :=
  if d ∈ existing then existing else d :: existing

/-! ## NotificationSink batch delivery
(exam_surveillance.send_results_one_by_one over
telegram_notifier.TelegramNotifier.send_message).  An entry read back
from the results JSON; entry.get supplies defaults for missing keys.
The sink oracle says whether bot.send_message succeeds for the k-th
entry; on failure send_message catches the exception and logs it,
so the batch loop continues either way, and asyncio.sleep(1) runs
after every send. -/

structure Entry where
  timestamp : Option String
  analysis : Option String
deriving DecidableEq, Repr

def formatMsg (e : Entry) : String :=
  "<b>Frame Analysis</b>\n<b>Timestamp:</b> " ++ e.timestamp.getD "N/A" ++
    "\n<b>Analysis:</b> " ++ e.analysis.getD "No analysis available"

inductive BEvent where
  | sent (msg : String)
  | failLogged (msg : String)
  | slept1
deriving DecidableEq, Repr

def send_message (ok : Bool) (msg : String) : BEvent :=
  if ok then .sent msg else .failLogged msg

def send_results_one_by_one : List Entry → (Nat → Bool) → Nat → List BEvent
  | [], _, _ => []
  | e :: rest, sinkOk, i =>
    send_message (sinkOk i) (formatMsg e) :: .slept1 ::
      send_results_one_by_one rest sinkOk (i + 1)

def sentMsgs (es : List BEvent) : List String :=
  es.filterMap fun e => match e with | .sent m => some m | _ => none

def failedMsgs (es : List BEvent) : List String :=
  es.filterMap fun e => match e with | .failLogged m => some m | _ => none

def sleep1Count (es : List BEvent) : Nat :=
  es.countP fun e => decide (e = BEvent.slept1)

/-- The messages the batch delivers, spelled out from the spec's
contract: each record whose send the sink accepts, in order. -/
def expectedSent : List Entry → (Nat → Bool) → Nat → List String
  | [], _, _ => []
  | e :: rest, sinkOk, i =>
    if sinkOk i then formatMsg e :: expectedSent rest sinkOk (i + 1)
    else expectedSent rest sinkOk (i + 1)

/-- The accumulated failures, spelled out from the spec's contract:
each record whose send the sink refuses, in order. -/
def expectedFailed : List Entry → (Nat → Bool) → Nat → List String
  | [], _, _ => []
  | e :: rest, sinkOk, i =>
    if sinkOk i then expectedFailed rest sinkOk (i + 1)
    else formatMsg e :: expectedFailed rest sinkOk (i + 1)

/-! ## Offline frame sampling (exam_surveillance.extract_frames)

Frames are abstracted as Nats; fps and interval_seconds are exact
rationals (cv2 reports fps as a float; the claims at stake only
involve the sign and the integer part, which the rational model
represents exactly).  Python's int() truncates toward zero; % and /
raise ZeroDivisionError on a zero divisor.  The video is the list of
frames cap.read() delivers before ret turns false. -/

def pyInt (q : ℚ) : Int :=
  if 0 ≤ q then ⌊q⌋ else ⌈q⌉

def extractLoop (fps : ℚ) (fi : Int) : List Nat → Nat → Except String (List (Nat × Int))
  | [], _ => .ok []
  | f :: rest, count =>
    if fi = 0 then .error "ZeroDivisionError: integer modulo by zero"
    else if (count : Int) % fi = 0 then
      if fps = 0 then .error "ZeroDivisionError: float division by zero"
      else
        match extractLoop fps fi rest (count + 1) with
        | .ok l => .ok ((f, pyInt ((count : ℚ) / fps)) :: l)
        | .error e => .error e
    else extractLoop fps fi rest (count + 1)

def extract_frames (fps interval : ℚ) (video : List Nat) :
    Except String (List (Nat × Int)) :=
  extractLoop fps (pyInt (fps * interval)) video 0

/-! ## Helper lemmas -/

lemma connectGo_allFail (cands : List CandOutcome) (i : Nat)
    (h : ∀ o ∈ cands, o ≠ CandOutcome.frameOk) :
    connectGo cands i = (false, failEvents cands i) := by
  induction cands generalizing i with
  | nil => rfl
  | cons c rest ih =>
    have hc := h c (List.mem_cons_self c rest)
    have hr : ∀ o ∈ rest, o ≠ CandOutcome.frameOk := fun o ho => h o (List.mem_cons_of_mem c ho)
    cases c with
    | frameOk => exact absurd rfl hc
    | openFail => simp [connectGo, failEvents, releasesResource, ih (i + 1) hr]
    | noFrame => simp [connectGo, failEvents, releasesResource, ih (i + 1) hr]
    | exnAfterOpen => simp [connectGo, failEvents, releasesResource, ih (i + 1) hr]

lemma connectGo_firstSuccess (pre rest : List CandOutcome) (i : Nat)
    (h : ∀ o ∈ pre, o ≠ CandOutcome.frameOk) :
    connectGo (pre ++ CandOutcome.frameOk :: rest) i =
      (true, failEvents pre i ++
        [CEvent.attempt (i + pre.length), CEvent.success (i + pre.length)]) := by
  induction pre generalizing i with
  | nil => simp [connectGo, failEvents]
  | cons c pr ih =>
    have hc := h c (List.mem_cons_self c pr)
    have hr : ∀ o ∈ pr, o ≠ CandOutcome.frameOk := fun o ho => h o (List.mem_cons_of_mem c ho)
    cases c with
    | frameOk => exact absurd rfl hc
    | openFail =>
      simp [connectGo, failEvents, releasesResource, ih (i + 1) hr, Nat.add_assoc,
        Nat.add_comm 1 pr.length]
    | noFrame =>
      simp [connectGo, failEvents, releasesResource, ih (i + 1) hr, Nat.add_assoc,
        Nat.add_comm 1 pr.length]
    | exnAfterOpen =>
      simp [connectGo, failEvents, releasesResource, ih (i + 1) hr, Nat.add_assoc,
        Nat.add_comm 1 pr.length]

lemma attemptedIdx_failEvents (cands : List CandOutcome) (i : Nat) :
    attemptedIdx (failEvents cands i) = List.range' i cands.length := by
  induction cands generalizing i with
  | nil => rfl
  | cons c rest ih =>
    cases hc : releasesResource c <;>
      simp [failEvents, attemptedIdx, hc, List.range'_succ] <;>
      simpa [attemptedIdx] using ih (i + 1)

lemma releasedIdx_failEvents (cands : List CandOutcome) (i : Nat) :
    releasedIdx (failEvents cands i) = expectedReleased cands i := by
  induction cands generalizing i with
  | nil => rfl
  | cons c rest ih =>
    cases hc : releasesResource c <;>
      simp [failEvents, releasedIdx, expectedReleased, hc] <;>
      simpa [releasedIdx] using ih (i + 1)

lemma attemptedIdx_append (es es2 : List CEvent) :
    attemptedIdx (es ++ es2) = attemptedIdx es ++ attemptedIdx es2 := by
  simp [attemptedIdx]

lemma successIdx_append (es es2 : List CEvent) :
    successIdx (es ++ es2) = successIdx es ++ successIdx es2 := by
  simp [successIdx]

lemma successIdx_failEvents (cands : List CandOutcome) (i : Nat) :
    successIdx (failEvents cands i) = [] := by
  induction cands generalizing i with
  | nil => rfl
  | cons c rest ih =>
    cases hc : releasesResource c <;>
      simp [failEvents, successIdx, hc] <;>
      simpa [successIdx] using ih (i + 1)

lemma range'_zero_concat (n : Nat) :
    List.range' 0 n ++ [n] = List.range' 0 (n + 1) := by
  have := List.range'_1_concat 0 n
  simpa using this.symm

lemma runLoop_append_ok (hs : List HttpResult) (ts : List TickOutcome) (i : Nat) :
    runLoop (hs.map TickOutcome.tickOk ++ ts) i = okEvents hs i ++ runLoop ts (i + hs.length) := by
  induction hs generalizing i with
  | nil => simp [okEvents]
  | cons h rest ih => simp [runLoop, okEvents, ih, Nat.add_assoc, Nat.add_comm 1 rest.length]

lemma runLoop_okMap (hs : List HttpResult) (i : Nat) :
    runLoop (hs.map TickOutcome.tickOk) i = okEvents hs i ++ [Event.disconnected] := by
  have := runLoop_append_ok hs [] i
  simpa [runLoop] using this

lemma savedList_append (a b : List Event) : savedList (a ++ b) = savedList a ++ savedList b := by
  simp [savedList]

lemma notifiedList_append (a b : List Event) :
    notifiedList (a ++ b) = notifiedList a ++ notifiedList b := by
  simp [notifiedList]

lemma savedList_okEvents (hs : List HttpResult) (i : Nat) :
    savedList (okEvents hs i) = expectedRecords hs i := by
  induction hs generalizing i with
  | nil => rfl
  | cons h rest ih =>
    simp only [okEvents, savedList, List.filterMap_cons] at *
    simp [ih, expectedRecords]

lemma notifiedList_okEvents (hs : List HttpResult) (i : Nat) :
    notifiedList (okEvents hs i) = expectedRecords hs i := by
  induction hs generalizing i with
  | nil => rfl
  | cons h rest ih =>
    simp only [okEvents, notifiedList, List.filterMap_cons] at *
    simp [ih, expectedRecords]

lemma sleepCount_okEvents (hs : List HttpResult) (i : Nat) :
    sleepCount (okEvents hs i) = hs.length := by
  induction hs generalizing i with
  | nil => rfl
  | cons h rest ih =>
    simp only [okEvents, sleepCount, List.countP_cons] at *
    simp [ih]

lemma sleepCount_append (a b : List Event) : sleepCount (a ++ b) = sleepCount a + sleepCount b := by
  simp [sleepCount, List.countP_append]

lemma disconnectCount_okEvents (hs : List HttpResult) (i : Nat) :
    disconnectCount (okEvents hs i) = 0 := by
  induction hs generalizing i with
  | nil => rfl
  | cons h rest ih =>
    simp only [okEvents, disconnectCount, List.countP_cons] at *
    simp [ih]

lemma disconnectCount_append (a b : List Event) :
    disconnectCount (a ++ b) = disconnectCount a + disconnectCount b := by
  simp [disconnectCount, List.countP_append]

lemma expectedRecords_fst (hs : List HttpResult) (i : Nat) :
    (expectedRecords hs i).map Prod.fst = List.range' i hs.length := by
  induction hs generalizing i with
  | nil => rfl
  | cons h rest ih => simp [expectedRecords, List.range'_succ, ih]

lemma expectedRecords_length (hs : List HttpResult) (i : Nat) :
    (expectedRecords hs i).length = hs.length := by
  induction hs generalizing i with
  | nil => rfl
  | cons h rest ih => simp [expectedRecords, ih]

lemma runLoop_ends_disconnected (ticks : List TickOutcome) (i : Nat) :
    ∃ es, runLoop ticks i = es ++ [Event.disconnected] := by
  induction ticks generalizing i with
  | nil => exact ⟨[], rfl⟩
  | cons t rest ih =>
    cases t with
    | tickOk h =>
      obtain ⟨es, he⟩ := ih (i + 1)
      refine ⟨Event.captured i :: Event.saved i (tickRecord h i) ::
        Event.notified i (tickRecord h i) :: Event.slept :: es, ?_⟩
      simp [runLoop, he]
    | failReconnectOk =>
      obtain ⟨es, he⟩ := ih (i + 1)
      refine ⟨Event.captureFail :: Event.disconnected :: Event.reconnectOk :: es, ?_⟩
      simp [runLoop, he]
    | failReconnectFail =>
      exact ⟨[Event.captureFail, Event.disconnected, Event.reconnectFail], rfl⟩
    | interrupt => exact ⟨[], rfl⟩

lemma fsRead_fsWrite_self {α : Type} (fs : List (Filename × α)) (n : Filename) (v : α) :
    fsRead (fsWrite fs n v) n = some v := by
  induction fs with
  | nil => simp [fsWrite, fsRead]
  | cons p rest ih =>
    obtain ⟨m, w⟩ := p
    by_cases hm : m = n
    · simp [fsWrite, fsRead, hm]
    · simp [fsWrite, fsRead, hm, ih]

lemma fsRead_fsWrite_ne {α : Type} (fs : List (Filename × α)) (n m : Filename) (v : α)
    (h : n ≠ m) : fsRead (fsWrite fs m v) n = fsRead fs n := by
  induction fs with
  | nil => simp [fsWrite, fsRead, Ne.symm h]
  | cons p rest ih =>
    obtain ⟨k, w⟩ := p
    by_cases hk : k = m
    · subst hk
      simp [fsWrite, fsRead, Ne.symm h]
    · by_cases hkn : k = n <;> simp [fsWrite, fsRead, hk, hkn, h, ih]

lemma sentMsgs_eq (entries : List Entry) (sinkOk : Nat → Bool) (i : Nat) :
    sentMsgs (send_results_one_by_one entries sinkOk i) = expectedSent entries sinkOk i := by
  induction entries generalizing i with
  | nil => rfl
  | cons e rest ih =>
    cases hok : sinkOk i <;>
      simp [send_results_one_by_one, send_message, sentMsgs, expectedSent, hok] <;>
      simpa [sentMsgs] using ih (i + 1)

lemma failedMsgs_eq (entries : List Entry) (sinkOk : Nat → Bool) (i : Nat) :
    failedMsgs (send_results_one_by_one entries sinkOk i) = expectedFailed entries sinkOk i := by
  induction entries generalizing i with
  | nil => rfl
  | cons e rest ih =>
    cases hok : sinkOk i <;>
      simp [send_results_one_by_one, send_message, failedMsgs, expectedFailed, hok] <;>
      simpa [failedMsgs] using ih (i + 1)

lemma sleep1Count_eq (entries : List Entry) (sinkOk : Nat → Bool) (i : Nat) :
    sleep1Count (send_results_one_by_one entries sinkOk i) = entries.length := by
  induction entries generalizing i with
  | nil => rfl
  | cons e rest ih =>
    cases hok : sinkOk i <;>
      simp only [send_results_one_by_one, send_message, sleep1Count, List.countP_cons, hok] <;>
      simpa [sleep1Count] using ih (i + 1)

lemma expected_lengths (entries : List Entry) (sinkOk : Nat → Bool) (i : Nat) :
    (expectedSent entries sinkOk i).length + (expectedFailed entries sinkOk i).length =
      entries.length := by
  induction entries generalizing i with
  | nil => rfl
  | cons e rest ih =>
    have hr := ih (i + 1)
    cases hok : sinkOk i <;> simp [expectedSent, expectedFailed, hok] <;> omega

lemma extractLoop_ok (fps : ℚ) (fi : Int) (hfi : fi ≠ 0) (hfps : fps ≠ 0)
    (video : List Nat) (count : Nat) :
    ∃ l, extractLoop fps fi video count = Except.ok l := by
  induction video generalizing count with
  | nil => exact ⟨[], rfl⟩
  | cons f rest ih =>
    obtain ⟨l, hl⟩ := ih (count + 1)
    by_cases hc : ((count : Int) % fi = 0)
    · refine ⟨(f, pyInt ((count : ℚ) / fps)) :: l, ?_⟩
      simp [extractLoop, hfi, hfps, hc, hl]
    · exact ⟨l, by simp [extractLoop, hfi, hc, hl]⟩

lemma pyInt_zero : pyInt 0 = 0 := by norm_num [pyInt]

/-! ## Claim theorems -/

/-- C1 counterexample: the claim says that when every candidate fails,
connect() releases each candidate's resources.  For the single
candidate list whose capture fails to open, connect() returns failure
but emits no release at all (the code hits `continue` before any
`release()` call on that path), so candidate 0 is never released. -/
theorem connect_openFail_no_release_cex :
    connect [CandOutcome.openFail] = (false, [CEvent.attempt 0]) ∧
    releasedIdx (connect [CandOutcome.openFail]).2 = [] ∧
    0 ∉ releasedIdx (connect [CandOutcome.openFail]).2 := by
  refine ⟨rfl, rfl, ?_⟩
  decide

/-- C1 (amended): connect() tries the candidate URLs strictly in the
order given at construction and stops at the first candidate that
yields a valid frame within the bounded window, returning success
having attempted exactly candidates 0..k; if every candidate fails it
attempts all candidates and returns failure, releasing the resources
of every candidate that opened (no valid frame within the window, or a
transport error after opening) — candidates whose open fails are
skipped without an explicit release. -/
theorem connect_order_and_failure :
    (∀ pre rest : List CandOutcome, (∀ o ∈ pre, o ≠ CandOutcome.frameOk) →
      connect (pre ++ CandOutcome.frameOk :: rest) =
        (true, failEvents pre 0 ++ [CEvent.attempt pre.length, CEvent.success pre.length]) ∧
      attemptedIdx (connect (pre ++ CandOutcome.frameOk :: rest)).2 =
        List.range (pre.length + 1) ∧
      successIdx (connect (pre ++ CandOutcome.frameOk :: rest)).2 = [pre.length]) ∧
    (∀ cands : List CandOutcome, (∀ o ∈ cands, o ≠ CandOutcome.frameOk) →
      connect cands = (false, failEvents cands 0) ∧
      attemptedIdx (connect cands).2 = List.range cands.length ∧
      releasedIdx (connect cands).2 = expectedReleased cands 0) := by
  constructor
  · intro pre rest h
    have hgo := connectGo_firstSuccess pre rest 0 h
    have hconn : connect (pre ++ CandOutcome.frameOk :: rest) =
        (true, failEvents pre 0 ++ [CEvent.attempt pre.length, CEvent.success pre.length]) := by
      simpa [connect] using hgo
    refine ⟨hconn, ?_, ?_⟩
    · rw [hconn]
      show attemptedIdx (failEvents pre 0 ++
        [CEvent.attempt pre.length, CEvent.success pre.length]) = List.range (pre.length + 1)
      rw [attemptedIdx_append, attemptedIdx_failEvents, List.range_eq_range']
      rw [show attemptedIdx [CEvent.attempt pre.length, CEvent.success pre.length] =
        [pre.length] from rfl]
      exact range'_zero_concat pre.length
    · rw [hconn]
      show successIdx (failEvents pre 0 ++
        [CEvent.attempt pre.length, CEvent.success pre.length]) = [pre.length]
      rw [successIdx_append, successIdx_failEvents]
      rfl
  · intro cands h
    have hgo := connectGo_allFail cands 0 h
    have hconn : connect cands = (false, failEvents cands 0) := by simpa [connect] using hgo
    refine ⟨hconn, ?_, ?_⟩
    · rw [hconn, List.range_eq_range']
      exact attemptedIdx_failEvents cands 0
    · rw [hconn]
      exact releasedIdx_failEvents cands 0

/-- C1 witness: the amended theorem instantiated at the concrete
candidate lists [noFrame, frameOk] (success on the second candidate)
and [noFrame, openFail] (total failure, only candidate 0 released). -/
theorem connect_order_and_failure_witness :
    (connect [CandOutcome.noFrame, CandOutcome.frameOk] =
      (true, [CEvent.attempt 0, CEvent.release 0, CEvent.attempt 1, CEvent.success 1]) ∧
     attemptedIdx (connect [CandOutcome.noFrame, CandOutcome.frameOk]).2 = [0, 1] ∧
     successIdx (connect [CandOutcome.noFrame, CandOutcome.frameOk]).2 = [1]) ∧
    (connect [CandOutcome.noFrame, CandOutcome.openFail] =
      (false, [CEvent.attempt 0, CEvent.release 0, CEvent.attempt 1]) ∧
     attemptedIdx (connect [CandOutcome.noFrame, CandOutcome.openFail]).2 = [0, 1] ∧
     releasedIdx (connect [CandOutcome.noFrame, CandOutcome.openFail]).2 = [0]) := by
  constructor
  · have := connect_order_and_failure.1 [CandOutcome.noFrame] [] (by decide)
    simpa [failEvents, releasesResource] using this
  · have := connect_order_and_failure.2 [CandOutcome.noFrame, CandOutcome.openFail] (by decide)
    simpa [failEvents, releasesResource, expectedReleased] using this

/-- C2: for every run of the surveillance loop consisting of N ticks
with zero capture failures, the result store receives exactly N
analysis records, persisted in strict capture order (indices 0..N-1 in
order), and the notification sink receives exactly N notifications in
that same order. -/
theorem run_allOk_in_order (hs : List HttpResult) :
    savedList (run_surveillance true (hs.map TickOutcome.tickOk)) = expectedRecords hs 0 ∧
    notifiedList (run_surveillance true (hs.map TickOutcome.tickOk)) = expectedRecords hs 0 ∧
    (expectedRecords hs 0).length = hs.length ∧
    (expectedRecords hs 0).map Prod.fst = List.range hs.length := by
  have hrun : run_surveillance true (hs.map TickOutcome.tickOk) =
      okEvents hs 0 ++ [Event.disconnected] := by
    simp [run_surveillance, runLoop_okMap]
  refine ⟨?_, ?_, expectedRecords_length hs 0, ?_⟩
  · rw [hrun, savedList_append, savedList_okEvents]
    simp [savedList]
  · rw [hrun, notifiedList_append, notifiedList_okEvents]
    simp [notifiedList]
  · rw [List.range_eq_range']
    exact expectedRecords_fst hs 0

/-- C3 counterexample: the claim says a malformed response body
(missing expected fields) maps to a record with status=error(reason).
For a 200 response whose body lacks the expected nested text field the
code instead stores the fallback text "No analysis available": the
spec-level status of the resulting record is ok, and the record is
byte-for-byte identical to the one produced by a fully successful
response whose analysis text happens to be that fallback string, so no
error is recorded. -/
theorem analyze_malformed_body_cex :
    specStatus (analyze_image (.response 200 none "bad body") "t" "p") = Status.ok ∧
    analyze_image (.response 200 none "bad body") "t" "p" =
      analyze_image (.response 200 (some "No analysis available") "fine") "t" "p" :=
  ⟨rfl, rfl⟩

/-- C3 (amended): analyze() never lets a backend failure escape to the
caller: a transport exception with message m yields the record
"Error: m" (spec status error), a non-200 status code s yields
"Error analyzing image: s - body" (spec status error), and in
particular an HTTP 500 yields a reason string containing "500"; the
surveillance loop persists and notifies whatever record analyze()
returns and proceeds with the next tick.  However a 200 response with
the expected fields missing yields the fallback text
"No analysis available", which is not an error record. -/
theorem analyze_error_handling :
    (∀ ts p m : String,
      analyze_image (.raises m) ts p = ⟨ts, p, "Error: " ++ m⟩ ∧
      specStatus (analyze_image (.raises m) ts p) = Status.error ("Error: " ++ m)) ∧
    (∀ ts p txt : String, ∀ s : Nat, ∀ tf : Option String, s ≠ 200 →
      analyze_image (.response s tf txt) ts p =
        ⟨ts, p, "Error analyzing image: " ++ toString s ++ " - " ++ txt⟩ ∧
      specStatus (analyze_image (.response s tf txt) ts p) =
        Status.error ("Error analyzing image: " ++ toString s ++ " - " ++ txt)) ∧
    (∀ ts p txt : String, ∀ tf : Option String,
      "500".data <:+: (analyze_image (.response 500 tf txt) ts p).analysis.data) ∧
    (∀ ts p txt : String,
      analyze_image (.response 200 none txt) ts p = ⟨ts, p, "No analysis available"⟩) ∧
    (∀ h : HttpResult, ∀ rest : List TickOutcome, ∀ i : Nat,
      runLoop (.tickOk h :: rest) i =
        Event.captured i :: Event.saved i (tickRecord h i) ::
          Event.notified i (tickRecord h i) :: Event.slept :: runLoop rest (i + 1)) := by
  refine ⟨?_, ?_, ?_, ?_, ?_⟩
  · intro ts p m
    exact ⟨rfl, by simp [analyze_image, specStatus]⟩
  · intro ts p txt s tf hs
    refine ⟨by simp [analyze_image, hs], ?_⟩
    simp [analyze_image, hs, specStatus]
  · intro ts p txt tf
    refine ⟨"Error analyzing image: ".data, (" - " ++ txt).data, ?_⟩
    show "Error analyzing image: ".data ++ "500".data ++ (" - " ++ txt).data =
      ("Error analyzing image: " ++ toString (500 : Nat) ++ " - " ++ txt).data
    simp [List.append_assoc]
    rfl
  · intro ts p txt
    rfl
  · intro h rest i
    rfl

/-- C3 witness: the amended theorem instantiated at an HTTP 500
response with body "Internal Server Error" on tick 0 of a one-tick
session. -/
theorem analyze_error_handling_witness :
    (analyze_image (.raises "boom") "t" "p" = ⟨"t", "p", "Error: boom"⟩ ∧
     specStatus (analyze_image (.raises "boom") "t" "p") = Status.error ("Error: " ++ "boom")) ∧
    (analyze_image (.response 500 none "Internal Server Error") "t" "p" =
      ⟨"t", "p", "Error analyzing image: " ++ toString (500 : Nat) ++ " - " ++
        "Internal Server Error"⟩) ∧
    "500".data <:+:
      (analyze_image (.response 500 none "Internal Server Error") "t" "p").analysis.data ∧
    runLoop [.tickOk (.response 500 none "Internal Server Error")] 0 =
      Event.captured 0 ::
        Event.saved 0 (tickRecord (.response 500 none "Internal Server Error") 0) ::
        Event.notified 0 (tickRecord (.response 500 none "Internal Server Error") 0) ::
        Event.slept :: runLoop [] 1 := by
  refine ⟨analyze_error_handling.1 "t" "p" "boom", ?_, ?_, ?_⟩
  · exact (analyze_error_handling.2.1 "t" "p" "Internal Server Error" 500 none
      (by decide)).1
  · exact analyze_error_handling.2.2.1 "t" "p" "Internal Server Error" none
  · exact analyze_error_handling.2.2.2.2 (.response 500 none "Internal Server Error") [] 0

/-- C4: in a session where a single capture failure is followed by a
successful reconnect, the loop skips exactly one
analysis/persist/notify cycle for the failed tick (only the failure,
disconnect and reconnect events occur there, and no sleep for that
tick) and afterwards resumes the normal fixed cadence: the trace
continues exactly as a fresh all-successful run, every remaining tick
persisting, notifying and sleeping the interval. -/
theorem single_failure_skips_one_tick (pre post : List HttpResult) :
    runLoop (pre.map TickOutcome.tickOk ++
        TickOutcome.failReconnectOk :: post.map TickOutcome.tickOk) 0 =
      okEvents pre 0 ++ Event.captureFail :: Event.disconnected :: Event.reconnectOk ::
        (okEvents post (pre.length + 1) ++ [Event.disconnected]) ∧
    savedList (runLoop (pre.map TickOutcome.tickOk ++
        TickOutcome.failReconnectOk :: post.map TickOutcome.tickOk) 0) =
      expectedRecords pre 0 ++ expectedRecords post (pre.length + 1) ∧
    notifiedList (runLoop (pre.map TickOutcome.tickOk ++
        TickOutcome.failReconnectOk :: post.map TickOutcome.tickOk) 0) =
      expectedRecords pre 0 ++ expectedRecords post (pre.length + 1) ∧
    sleepCount (runLoop (pre.map TickOutcome.tickOk ++
        TickOutcome.failReconnectOk :: post.map TickOutcome.tickOk) 0) =
      pre.length + post.length := by
  have hrun : runLoop (pre.map TickOutcome.tickOk ++
      TickOutcome.failReconnectOk :: post.map TickOutcome.tickOk) 0 =
      okEvents pre 0 ++ Event.captureFail :: Event.disconnected :: Event.reconnectOk ::
        (okEvents post (pre.length + 1) ++ [Event.disconnected]) := by
    rw [runLoop_append_ok]
    rw [show runLoop (TickOutcome.failReconnectOk :: post.map TickOutcome.tickOk)
        (0 + pre.length) =
      Event.captureFail :: Event.disconnected :: Event.reconnectOk ::
        runLoop (post.map TickOutcome.tickOk) (0 + pre.length + 1) from rfl]
    rw [runLoop_okMap]
    simp [Nat.add_comm]
  refine ⟨hrun, ?_, ?_, ?_⟩
  · rw [hrun]
    rw [show Event.captureFail :: Event.disconnected :: Event.reconnectOk ::
        (okEvents post (pre.length + 1) ++ [Event.disconnected]) =
      [Event.captureFail, Event.disconnected, Event.reconnectOk] ++
        (okEvents post (pre.length + 1) ++ [Event.disconnected]) from rfl]
    simp only [savedList_append, savedList_okEvents]
    simp [savedList]
  · rw [hrun]
    rw [show Event.captureFail :: Event.disconnected :: Event.reconnectOk ::
        (okEvents post (pre.length + 1) ++ [Event.disconnected]) =
      [Event.captureFail, Event.disconnected, Event.reconnectOk] ++
        (okEvents post (pre.length + 1) ++ [Event.disconnected]) from rfl]
    simp only [notifiedList_append, notifiedList_okEvents]
    simp [notifiedList]
  · rw [hrun]
    rw [show Event.captureFail :: Event.disconnected :: Event.reconnectOk ::
        (okEvents post (pre.length + 1) ++ [Event.disconnected]) =
      [Event.captureFail, Event.disconnected, Event.reconnectOk] ++
        (okEvents post (pre.length + 1) ++ [Event.disconnected]) from rfl]
    simp only [sleepCount_append, sleepCount_okEvents]
    simp [sleepCount]

/-- C5 counterexample: the claim says disconnect() is invoked exactly
once on the fatal reconnect-failure exit path.  In the session with a
single tick whose capture fails and whose reconnect also fails, the
code calls disconnect() before the reconnect attempt and then again in
the finally block, so the trace contains two disconnect invocations,
not one. -/
theorem reconnect_fail_disconnect_twice_cex :
    run_surveillance true [TickOutcome.failReconnectFail] =
      [Event.captureFail, Event.disconnected, Event.reconnectFail, Event.disconnected] ∧
    disconnectCount (run_surveillance true [TickOutcome.failReconnectFail]) = 2 ∧
    disconnectCount (run_surveillance true [TickOutcome.failReconnectFail]) ≠ 1 := by
  refine ⟨rfl, rfl, ?_⟩
  decide

/-- C5 (amended): when a capture failure is followed by a failed
reconnect attempt the session terminates immediately with a fatal
connectivity error (no later tick is processed), invoking disconnect()
twice on that exit path — once before the reconnect attempt and once
in the final cleanup; more generally, on every exit path of the loop
(duration elapsed, interrupt, or fatal reconnect failure) the
FrameSource is disconnected before the loop returns: the trace always
ends with a disconnect event. -/
theorem loop_exit_always_disconnects :
    (∀ ticks : List TickOutcome, ∀ i : Nat,
      ∃ es, runLoop ticks i = es ++ [Event.disconnected]) ∧
    (∀ pre : List HttpResult, ∀ rest : List TickOutcome,
      runLoop (pre.map TickOutcome.tickOk ++ TickOutcome.failReconnectFail :: rest) 0 =
        okEvents pre 0 ++
          [Event.captureFail, Event.disconnected, Event.reconnectFail, Event.disconnected] ∧
      disconnectCount (runLoop (pre.map TickOutcome.tickOk ++
        TickOutcome.failReconnectFail :: rest) 0) = 2) := by
  refine ⟨runLoop_ends_disconnected, ?_⟩
  intro pre rest
  have hrun : runLoop (pre.map TickOutcome.tickOk ++
      TickOutcome.failReconnectFail :: rest) 0 =
      okEvents pre 0 ++
        [Event.captureFail, Event.disconnected, Event.reconnectFail, Event.disconnected] := by
    rw [runLoop_append_ok]
    rfl
  refine ⟨hrun, ?_⟩
  rw [hrun, disconnectCount_append, disconnectCount_okEvents]
  rfl

/-- C6: an AnalysisRecord serialized to the persisted JSON format and
read back yields an identical record — the same timestamp, frame
reference, analysis text and hence the same spec-level status as the
record the analysis client created. -/
theorem record_json_roundtrip (r : Record) :
    recordOfJson (recordToJson r) = some r ∧
    (recordOfJson (recordToJson r)).map specStatus = some (specStatus r) :=
  ⟨rfl, rfl⟩

/-- C7 counterexample: the claim says save operations never overwrite
a previously persisted record.  Two saves that obtain the same
second-resolution timestamp (here both at key 5) derive the same file
name, so the second save truncates the first: after saving two
distinct records the store holds a single artifact, carrying only the
second record. -/
theorem save_same_second_overwrites_cex :
    save_analysis_results 5 (save_analysis_results 5 [] ⟨"t1", "p1", "a1"⟩) ⟨"t2", "p2", "a2"⟩ =
      [(("analysis_results/analysis_", 5), recordToJson ⟨"t2", "p2", "a2"⟩)] ∧
    (save_analysis_results 5 (save_analysis_results 5 [] ⟨"t1", "p1", "a1"⟩)
      ⟨"t2", "p2", "a2"⟩).length = 1 ∧
    (⟨"t1", "p1", "a1"⟩ : Record) ≠ ⟨"t2", "p2", "a2"⟩ := by
  refine ⟨rfl, rfl, ?_⟩
  decide

/-- C7 (amended): save(record) and save_frame(frame) each persist an
artifact under a timestamp-derived name; saves whose second-resolution
timestamps differ land under distinct names and never overwrite each
other (both artifacts remain readable afterwards), but two saves
within the same second derive the same name and the later one
overwrites the earlier; the output directory is created (with
exist_ok, at construction and hence before first use) if absent. -/
theorem save_distinct_timestamps_unique :
    (∀ fs : List (Filename × Json), ∀ ts1 ts2 : Nat, ∀ r1 r2 : Record, ts1 ≠ ts2 →
      fsRead (save_analysis_results ts2 (save_analysis_results ts1 fs r1) r2)
        ("analysis_results/analysis_", ts1) = some (recordToJson r1) ∧
      fsRead (save_analysis_results ts2 (save_analysis_results ts1 fs r1) r2)
        ("analysis_results/analysis_", ts2) = some (recordToJson r2)) ∧
    (∀ gs : List (Filename × Nat), ∀ ts1 ts2 f1 f2 : Nat, ts1 ≠ ts2 →
      fsRead (save_frame ts2 (save_frame ts1 gs f1) f2)
        ("surveillance_images/frame_", ts1) = some f1 ∧
      fsRead (save_frame ts2 (save_frame ts1 gs f1) f2)
        ("surveillance_images/frame_", ts2) = some f2) ∧
    (∀ existing : List String, ∀ d : String, d ∈ makedirs existing d) := by
  refine ⟨?_, ?_, ?_⟩
  · intro fs ts1 ts2 r1 r2 hts
    constructor
    · rw [save_analysis_results, fsRead_fsWrite_ne _ _ _ _ (by simp [hts])]
      exact fsRead_fsWrite_self fs _ _
    · exact fsRead_fsWrite_self _ _ _
  · intro gs ts1 ts2 f1 f2 hts
    constructor
    · rw [save_frame, fsRead_fsWrite_ne _ _ _ _ (by simp [hts])]
      exact fsRead_fsWrite_self gs _ _
    · exact fsRead_fsWrite_self _ _ _
  · intro existing d
    by_cases hd : d ∈ existing <;> simp [makedirs, hd]

/-- C7 witness: the amended theorem instantiated at timestamps 1 and 2
on an empty store. -/
theorem save_distinct_timestamps_unique_witness :
    (fsRead (save_analysis_results 2 (save_analysis_results 1 [] ⟨"t1", "p1", "a1"⟩)
        ⟨"t2", "p2", "a2"⟩) ("analysis_results/analysis_", 1) =
      some (recordToJson ⟨"t1", "p1", "a1"⟩) ∧
     fsRead (save_analysis_results 2 (save_analysis_results 1 [] ⟨"t1", "p1", "a1"⟩)
        ⟨"t2", "p2", "a2"⟩) ("analysis_results/analysis_", 2) =
      some (recordToJson ⟨"t2", "p2", "a2"⟩)) ∧
    (fsRead (save_frame 2 (save_frame 1 [] 10) 20) ("surveillance_images/frame_", 1) =
      some 10 ∧
     fsRead (save_frame 2 (save_frame 1 [] 10) 20) ("surveillance_images/frame_", 2) =
      some 20) ∧
    "surveillance_images" ∈ makedirs [] "surveillance_images" := by
  refine ⟨?_, ?_, ?_⟩
  · exact save_distinct_timestamps_unique.1 [] 1 2 ⟨"t1", "p1", "a1"⟩ ⟨"t2", "p2", "a2"⟩
      (by decide)
  · exact save_distinct_timestamps_unique.2.1 [] 1 2 10 20 (by decide)
  · exact save_distinct_timestamps_unique.2.2 [] "surveillance_images"

/-- C8: batch notification sends each record individually, formatted
with its timestamp and analysis text, with a mandatory sleep after
every send; a failed send is caught and logged inside send_message, so
the batch continues: the delivered messages are exactly those of the
records the sink accepts, in order, the accumulated failures are
exactly those of the records it refuses, in order, and delivered plus
failed counts account for every record.  In particular, for a batch of
five records where only the third send fails, records 1, 2, 4 and 5
are delivered and exactly one failure is reported. -/
theorem send_batch_tolerates_failures :
    (∀ entries : List Entry, ∀ sinkOk : Nat → Bool, ∀ i : Nat,
      sentMsgs (send_results_one_by_one entries sinkOk i) = expectedSent entries sinkOk i ∧
      failedMsgs (send_results_one_by_one entries sinkOk i) =
        expectedFailed entries sinkOk i ∧
      sleep1Count (send_results_one_by_one entries sinkOk i) = entries.length ∧
      (sentMsgs (send_results_one_by_one entries sinkOk i)).length +
        (failedMsgs (send_results_one_by_one entries sinkOk i)).length = entries.length) ∧
    (∀ e1 e2 e3 e4 e5 : Entry,
      sentMsgs (send_results_one_by_one [e1, e2, e3, e4, e5] (fun k => !(k == 2)) 0) =
        [formatMsg e1, formatMsg e2, formatMsg e4, formatMsg e5] ∧
      failedMsgs (send_results_one_by_one [e1, e2, e3, e4, e5] (fun k => !(k == 2)) 0) =
        [formatMsg e3] ∧
      (failedMsgs (send_results_one_by_one [e1, e2, e3, e4, e5]
        (fun k => !(k == 2)) 0)).length = 1) := by
  constructor
  · intro entries sinkOk i
    refine ⟨sentMsgs_eq entries sinkOk i, failedMsgs_eq entries sinkOk i,
      sleep1Count_eq entries sinkOk i, ?_⟩
    rw [sentMsgs_eq, failedMsgs_eq]
    exact expected_lengths entries sinkOk i
  · intro e1 e2 e3 e4 e5
    refine ⟨?_, ?_, ?_⟩ <;> rfl

/-- C9: disconnect() is idempotent — calling it on an
already-disconnected or never-connected FrameSource is a no-op that
leaves the state unchanged (and, being a total function of the state,
never raises), the state after any disconnect() is disconnected, and
calling disconnect() twice in a row equals calling it once. -/
theorem disconnect_idempotent (s : FrameSource) :
    disconnect (disconnect s) = disconnect s ∧
    isConnected (disconnect s) = false ∧
    (isConnected s = false → disconnect s = s) := by
  obtain ⟨c⟩ := s
  cases c with
  | none => exact ⟨rfl, rfl, fun _ => rfl⟩
  | some cap =>
    obtain ⟨b⟩ := cap
    cases b with
    | false => exact ⟨rfl, rfl, fun _ => rfl⟩
    | true =>
      refine ⟨rfl, rfl, ?_⟩
      intro h
      exact absurd h (by decide)

/-- C9 witness: the theorem instantiated at the already-disconnected
source whose capture object has been released. -/
theorem disconnect_idempotent_witness :
    disconnect (disconnect ⟨some ⟨false⟩⟩) = disconnect ⟨some ⟨false⟩⟩ ∧
    isConnected (disconnect ⟨some ⟨false⟩⟩) = false ∧
    disconnect (⟨some ⟨false⟩⟩ : FrameSource) = ⟨some ⟨false⟩⟩ :=
  ⟨(disconnect_idempotent ⟨some ⟨false⟩⟩).1, (disconnect_idempotent ⟨some ⟨false⟩⟩).2.1,
    (disconnect_idempotent ⟨some ⟨false⟩⟩).2.2 (by decide)⟩

/-- C10 counterexample: the claim says that for every opened video
with fps times interval below 1 the call raises on the frame-selection
modulo.  An opened video that delivers no frame at all (cap.read fails
immediately) never reaches the modulo: with reported fps 0 and the
default 60 second interval, extract_frames returns the empty frame
list instead of raising. -/
theorem extract_frames_empty_video_cex :
    extract_frames 0 60 [] = Except.ok [] ∧ (0 : ℚ) * 60 < 1 := by
  refine ⟨rfl, ?_⟩
  norm_num

/-- C10 (amended): for every opened video with at least one readable
frame whose reported fps times the sampling interval truncates to 0
(int(fps * interval_seconds) = 0, e.g. fps reported as 0), the
frame-selection step performs a modulo by zero and the call raises
instead of returning a frame list; a video with no readable frame
returns the empty list without raising, and in general the call fails
exactly when the video is non-empty and the truncated product is 0;
for non-negative fps * interval the truncated product is 0 exactly
when fps * interval < 1, so callers need fps * interval_seconds >= 1
as a precondition. -/
theorem extract_frames_modulo_zero :
    (∀ fps interval : ℚ, ∀ f : Nat, ∀ rest : List Nat,
      pyInt (fps * interval) = 0 →
      extract_frames fps interval (f :: rest) =
        Except.error "ZeroDivisionError: integer modulo by zero") ∧
    (∀ fps interval : ℚ, ∀ video : List Nat,
      ((extract_frames fps interval video).isOk = false ↔
        (video ≠ [] ∧ pyInt (fps * interval) = 0))) ∧
    (∀ fps interval : ℚ, 0 ≤ fps * interval →
      (pyInt (fps * interval) = 0 ↔ fps * interval < 1)) := by
  refine ⟨?_, ?_, ?_⟩
  · intro fps interval f rest hz
    simp [extract_frames, extractLoop, hz]
  · intro fps interval video
    cases video with
    | nil => simp [extract_frames, extractLoop, Except.isOk, Except.toBool]
    | cons f rest =>
      by_cases hz : pyInt (fps * interval) = 0
      · simp [extract_frames, extractLoop, hz, Except.isOk, Except.toBool]
      · have hfps : fps ≠ 0 := by
          intro h0
          apply hz
          rw [h0, zero_mul, pyInt_zero]
        obtain ⟨l, hl⟩ := extractLoop_ok fps (pyInt (fps * interval)) hz hfps (f :: rest) 0
        simp [extract_frames, hl, Except.isOk, Except.toBool, hz]
  · intro fps interval hq
    rw [pyInt, if_pos hq, Int.floor_eq_zero_iff]
    constructor
    · intro h
      exact h.2
    · intro h
      exact Set.mem_Ico.mpr ⟨hq, h⟩

/-- C10 witness: the amended theorem at fps 0, interval 60 and a
one-frame video, and the precondition equivalence at the in-range
product one half. -/
theorem extract_frames_modulo_zero_witness :
    extract_frames 0 60 [7] = Except.error "ZeroDivisionError: integer modulo by zero" ∧
    ((extract_frames 0 60 [7]).isOk = false ↔ ([7] ≠ ([] : List Nat) ∧ pyInt (0 * 60) = 0)) ∧
    (pyInt ((1 : ℚ) / 2 * 1) = 0 ↔ (1 : ℚ) / 2 * 1 < 1) := by
  refine ⟨?_, ?_, ?_⟩
  · exact extract_frames_modulo_zero.1 0 60 7 [] (by norm_num [pyInt])
  · exact extract_frames_modulo_zero.2.1 0 60 [7]
  · exact extract_frames_modulo_zero.2.2 (1 / 2) 1 (by norm_num)

end SurCam
